import Mathlib

/-!
Verification of the plasma-setup privileged-helper core against its
natural-language specification.

The definitions below are shallow embeddings of the C++ sources:
  * `src/src/usernamevalidator.h`        — username validation
  * `src/unnamed/part_002`               — hostname validation and `HostnameUtil`
  * `src/src/accountcontroller.cpp`      — login.defs parsing, existing-user scan
  * `src/src/auth/authhelper.cpp`        — `PrivilegeGuard`, `getUserInfo`, actions

Qt strings (`QString`) are modelled as `List Char`; `QString::size` counts
UTF-16 code units, modelled by `qsize`.  Effectful code is modelled by
explicit state/trace passing, with the success of each system call an
explicit boolean parameter of the run.
-/

namespace PlasmaSetup

/-! ## QString model -/

/-- Model of `QChar::isSpace`: true for the ASCII whitespace control characters
0x9..0xD, ordinary space, NEL (0x85), and the Unicode separator
characters (categories Zs, Zl, Zp).  Used by `QString::trimmed`. -/
def isQtSpace (c : Char) : Bool :=
  let n := c.toNat
  n == 0x20 || (0x9 ≤ n && n ≤ 0xD) || n == 0x85 || n == 0xA0 ||
  n == 0x1680 || (0x2000 ≤ n && n ≤ 0x200A) || n == 0x2028 || n == 0x2029 ||
  n == 0x202F || n == 0x205F || n == 0x3000

/-- Model of `QString::trimmed`: remove leading and trailing whitespace. -/
def trimmedQ (s : List Char) : List Char :=
  ((s.dropWhile isQtSpace).reverse.dropWhile isQtSpace).reverse

/-- Number of UTF-16 code units a character occupies in a `QString`. -/
def utf16Len (c : Char) : Nat :=
  if c.toNat < 0x10000 then 1 else 2

/-- Model of `QString::size`: the length in UTF-16 code units. -/
def qsize (s : List Char) : Nat :=
  (s.map utf16Len).sum

/-! ## Username validation (`src/src/usernamevalidator.h`) -/

/-- The closed enumeration of username validation outcomes. -/
inductive UsernameValidationResult where
  | Valid
  | Empty
  | TooLong
  | InvalidCharacters
deriving DecidableEq, Repr

/-- Constant `MAX_USERNAME_LENGTH` from `usernamevalidator.h`. -/
def MAX_USERNAME_LENGTH : Nat := 32

/-- A character allowed to start a username: `[A-Za-z_]`. -/
def isUsernameStartChar (c : Char) : Bool :=
  ('A' ≤ c && c ≤ 'Z') || ('a' ≤ c && c ≤ 'z') || c == '_'

/-- A character allowed after the first: `[A-Za-z0-9_.-]`. -/
def isUsernameTailChar (c : Char) : Bool :=
  isUsernameStartChar c || ('0' ≤ c && c ≤ '9') || c == '.' || c == '-'

/-- Whole-string match of the username pattern `^[A-Za-z_][A-Za-z0-9_.-]*$`. -/
def matchesUsernamePattern : List Char → Bool
  | [] => false
  | c :: rest => isUsernameStartChar c && rest.all isUsernameTailChar

/-- Model of `PlasmaSetupValidation::Account::validateUsername`. -/
def validateUsername (username : List Char) : UsernameValidationResult :=
  let t := trimmedQ username
  if t.isEmpty then .Empty
  else if qsize t > MAX_USERNAME_LENGTH then .TooLong
  else if !matchesUsernamePattern t then .InvalidCharacters
  else .Valid

/-- Model of `PlasmaSetupValidation::Account::isUsernameValid`. -/
def isUsernameValid (username : List Char) : Bool :=
  validateUsername username == .Valid

/-- Model of `PlasmaSetupValidation::Account::usernameValidationMessage`
(the untranslated message catalogue texts). -/
def usernameValidationMessage : UsernameValidationResult → String
  | .Valid => ""
  | .Empty => "Username cannot be empty."
  | .TooLong => "Username is too long (maximum 32 characters)."
  | .InvalidCharacters =>
      "Usernames must start with a letter or underscore.\n\nThey may contain only letters, numbers, periods, underscores, or hyphens."

/-! ## Hostname validation (`HostnameUtil`, `src/unnamed/part_002`) -/

/-- The closed enumeration of hostname validation outcomes. -/
inductive HostnameValidationResult where
  | Valid
  | Empty
  | Disallowed
  | TooLong
  | LeadingDot
  | TrailingDot
  | ConsecutiveDots
  | EmptyLabel
  | LabelTooLong
  | InvalidCharacters
deriving DecidableEq, Repr

/-- Constant `MAX_HOSTNAME_LENGTH` from the hostname utility. -/
def MAX_HOSTNAME_LENGTH : Nat := 253

/-- Constant `MAX_LABEL_LENGTH` from the hostname utility. -/
def MAX_LABEL_LENGTH : Nat := 63

/-- The char list of the literal `"localhost"`. -/
def localhostChars : List Char :=
  ['l', 'o', 'c', 'a', 'l', 'h', 'o', 's', 't']

/-- The char list of the literal `"localhost.localdomain"`. -/
def localhostLocaldomainChars : List Char :=
  localhostChars ++ '.' :: ['l', 'o', 'c', 'a', 'l', 'd', 'o', 'm', 'a', 'i', 'n']

/-- Model of `QString::compare(…, Qt::CaseInsensitive) == 0` for the ASCII strings
compared here, modelled by comparing after ASCII lowercasing. -/
def caseInsensitiveEq (a b : List Char) : Bool :=
  a.map Char.toLower == b.map Char.toLower

/-- Model of `isDisallowedHostname`: case-insensitive comparison of the trimmed input
against the `DISALLOWED_HOSTNAMES` list. -/
def isDisallowedHostname (hostname : List Char) : Bool :=
  let t := trimmedQ hostname
  caseInsensitiveEq t localhostChars || caseInsensitiveEq t localhostLocaldomainChars

/-- An ASCII alphanumeric character: `[A-Za-z0-9]`. -/
def isHostAlnum (c : Char) : Bool :=
  ('A' ≤ c && c ≤ 'Z') || ('a' ≤ c && c ≤ 'z') || ('0' ≤ c && c ≤ '9')

/-- Whole-string match of `VALID_HOSTNAME_REGEX`,
`^[A-Za-z0-9](?:[A-Za-z0-9-]*[A-Za-z0-9])?$`: nonempty, alphanumeric first
and last character, hyphens also allowed in between. -/
def matchesLabelPattern (l : List Char) : Bool :=
  match l with
  | [] => false
  | c :: rest =>
    match rest.reverse with
    | [] => isHostAlnum c
    | d :: mid => isHostAlnum c && isHostAlnum d && mid.all fun x => isHostAlnum x || x == '-'

/-- Model of `QString::split(u'.')` with the default `KeepEmptyParts` behaviour. -/
def splitOnChar (sep : Char) : List Char → List (List Char)
  | [] => [[]]
  | c :: rest =>
    let r := splitOnChar sep rest
    if c == sep then [] :: r
    else
      match r with
      | [] => [[c]]
      | h :: t => (c :: h) :: t

/-- Whether the string contains two adjacent dots (`trimmed.contains("..")`). -/
def hasConsecutiveDots : List Char → Bool
  | a :: b :: rest => (a == '.' && b == '.') || hasConsecutiveDots (b :: rest)
  | _ => false

/-- The per-label loop body of `validateHostname`: first failing label, if
any, decides the outcome. -/
def checkHostnameLabels : List (List Char) → HostnameValidationResult
  | [] => .Valid
  | l :: rest =>
    if l.isEmpty then .EmptyLabel
    else if qsize l > MAX_LABEL_LENGTH then .LabelTooLong
    else if !matchesLabelPattern l then .InvalidCharacters
    else checkHostnameLabels rest

/-- Model of `validateHostname` from `src/unnamed/part_002`. -/
def validateHostname (hostname : List Char) : HostnameValidationResult :=
  let t := trimmedQ hostname
  if t.isEmpty then .Empty
  else if isDisallowedHostname t then .Disallowed
  else if qsize t > MAX_HOSTNAME_LENGTH then .TooLong
  else if t.head? == some '.' then .LeadingDot
  else if t.getLast? == some '.' then .TrailingDot
  else if hasConsecutiveDots t then .ConsecutiveDots
  else checkHostnameLabels (splitOnChar '.' t)

/-- Model of `hostnameValidationMessageForResult` (untranslated message texts). -/
def hostnameValidationMessageForResult : HostnameValidationResult → String
  | .Valid => ""
  | .Empty => "Hostname cannot be empty."
  | .Disallowed => "Hostname cannot be \"localhost\" or \"localhost.localdomain\"."
  | .TooLong => "Hostname is too long (maximum 253 characters)."
  | .LeadingDot => "Hostname cannot start with a dot."
  | .TrailingDot => "Hostname cannot end with a dot."
  | .ConsecutiveDots => "Hostname cannot contain consecutive dots."
  | .EmptyLabel => "Hostname labels cannot be empty."
  | .LabelTooLong => "Each hostname label must be at most 63 characters."
  | .InvalidCharacters =>
      "Hostnames may contain letters, numbers, and hyphens. Each label must start and end with a letter or number."

/-- Model of `HostnameUtil::setHostname` as a pure transition on the cached hostname
`m_hostname`.  Result: the new cached hostname, whether `hostnameChanged`
was emitted, and the hostname forwarded to `setHostnameOnSystem` (if any). -/
def setHostname (m_hostname : List Char) (hostname : List Char) :
    List Char × Bool × Option (List Char) :=
  let t := trimmedQ hostname
  if t = m_hostname then (m_hostname, false, none)
  else if validateHostname t ≠ .Valid then (m_hostname, false, none)
  else (t, true, some t)

/-! ## Account controller (`src/src/accountcontroller.cpp`) -/

/-- Constant `MINIMUM_USER_ID` — absolute lowest possible uid. -/
def MINIMUM_USER_ID : Int := 0

/-- Constant `MAXIMUM_USER_ID` — typical highest uid for local accounts. -/
def MAXIMUM_USER_ID : Int := 65535

/-- Constant `DEFAULT_MIN_REGULAR_USER_ID` — fallback when `UID_MIN` is unavailable. -/
def DEFAULT_MIN_REGULAR_USER_ID : Int := 1000

/-- Constant `DEFAULT_MAX_REGULAR_USER_ID` — fallback when `UID_MAX` is unavailable. -/
def DEFAULT_MAX_REGULAR_USER_ID : Int := 65000

/-- An entry of the system account database (`struct passwd`): the fields
the program reads.  `uid`/`gid` are `uid_t`, i.e. non-negative. -/
structure PasswdEntry where
  name : String
  home : String
  uid : Nat
  gid : Nat
deriving DecidableEq, Repr

/-- Parse a run of ASCII digits as a number; fails on any other character
or on the empty list. -/
def digitsToNat : List Char → Option Nat
  | [] => none
  | l => l.foldl (fun acc c =>
      acc.bind fun n => if c.isDigit then some (n * 10 + (c.toNat - 48)) else none)
      (some 0)

/-- Model of `QString::toInt` (base 10, C locale) on a whitespace-free token:
an optional sign followed by digits, rejecting values outside the range
of a 32-bit `int`. -/
def qStringToInt (s : List Char) : Option Int :=
  match s with
  | '+' :: rest => (digitsToNat rest).bind fun n =>
      if n ≤ 2147483647 then some (n : Int) else none
  | '-' :: rest => (digitsToNat rest).bind fun n =>
      if n ≤ 2147483648 then some (-(n : Int)) else none
  | _ => (digitsToNat s).bind fun n =>
      if n ≤ 2147483647 then some (n : Int) else none

/-- A whitespace character of the `\s` class used to tokenise login.defs
lines (PCRE default: ASCII whitespace). -/
def isAsciiSpace (c : Char) : Bool :=
  let n := c.toNat
  n == 0x20 || (0x9 ≤ n && n ≤ 0xD)

/-- Split on a character class, keeping empty parts. -/
def splitWhen (p : Char → Bool) : List Char → List (List Char)
  | [] => [[]]
  | c :: rest =>
    let r := splitWhen p rest
    if p c then [] :: r
    else
      match r with
      | [] => [[c]]
      | h :: t => (c :: h) :: t

/-- Model of `trimmedLine.split(whitespace, Qt::SkipEmptyParts)`. -/
def wsTokens (s : List Char) : List (List Char) :=
  (splitWhen isAsciiSpace s).filter fun t => !t.isEmpty

/-- The char list of the key `"UID_MIN"`. -/
def uidMinKey : List Char := ['U', 'I', 'D', '_', 'M', 'I', 'N']

/-- The char list of the key `"UID_MAX"`. -/
def uidMaxKey : List Char := ['U', 'I', 'D', '_', 'M', 'A', 'X']

/-- One iteration of the `regularUserUidRange` read loop: trim the line,
skip blank and `#`-comment lines, tokenise on whitespace, and update the
corresponding bound when the first token is `UID_MIN`/`UID_MAX` and the
second parses as a non-negative int. -/
def applyLoginDefsLine (acc : Int × Int) (line : List Char) : Int × Int :=
  let t := trimmedQ line
  if t.isEmpty then acc
  else if t.head? == some '#' then acc
  else
    match wsTokens t with
    | k :: v :: _ =>
      let acc1 :=
        if k = uidMinKey then
          match qStringToInt v with
          | some n => if 0 ≤ n then (n, acc.2) else acc
          | none => acc
        else acc
      if k = uidMaxKey then
        match qStringToInt v with
        | some n => if 0 ≤ n then (acc1.1, n) else acc1
        | none => acc1
      else acc1
    | _ => acc

/-- Model of `AccountController::regularUserUidRange`: `none` models a login.defs
file that cannot be opened; `some lines` models its lines as read by
`QTextStream::readLine`. -/
def regularUserUidRange (file : Option (List (List Char))) : Int × Int :=
  match file with
  | none => (DEFAULT_MIN_REGULAR_USER_ID, DEFAULT_MAX_REGULAR_USER_ID)
  | some lines =>
      lines.foldl applyLoginDefsLine (DEFAULT_MIN_REGULAR_USER_ID, DEFAULT_MAX_REGULAR_USER_ID)

/-- Model of `AccountController::detectExistingUsers`: scan the account database for
an entry whose uid lies in the clipped range.  The conversions
`static_cast<uid_t>` of the clipped bounds are modelled exactly, including
the wrap-around of a negative value to an unsigned 32-bit integer. -/
def detectExistingUsers (uidRange : Int × Int) (db : List PasswdEntry) : Bool :=
  let uidMin : Nat := ((max uidRange.1 MINIMUM_USER_ID) % 4294967296).toNat
  let uidMax : Nat := ((min uidRange.2 MAXIMUM_USER_ID) % 4294967296).toNat
  db.any fun e => decide (uidMin ≤ e.uid) && decide (e.uid ≤ uidMax)

/-! ## Auth helper (`src/src/auth/authhelper.cpp`) -/

/-- Constant `MIN_REGULAR_USER_UID` — the helper's hardcoded minimum uid for regular
users (`constexpr int MIN_REGULAR_USER_UID = 1000`). -/
def MIN_REGULAR_USER_UID : Nat := 1000

/-- Model of `struct UserInfo` from `authhelper.h`. -/
structure UserInfo where
  username : String
  homePath : String
  uid : Nat
  gid : Nat
deriving DecidableEq, Repr

/-- The possible outcomes of the `getpwnam_r` call inside `getUserInfo`:
no entry and no error (`result == nullptr, ret == 0`), no entry with an
error code (`result == nullptr, ret != 0`), or a found entry. -/
inductive PwLookup where
  | notFound
  | sysError (code : Int)
  | found (e : PasswdEntry)
deriving DecidableEq, Repr

/-- Model of `PlasmaSetupAuthHelper::getUserInfo`: validation of a username against
the account database.  A thrown `std::runtime_error` is modelled as
`.error` carrying the exception text. -/
def getUserInfo (username : String) (lookup : PwLookup) : Except String UserInfo :=
  match lookup with
  | .notFound => .error ("User does not exist: " ++ username)
  | .sysError code =>
      .error ("System error while looking up user " ++ username ++ ": error code " ++ toString code)
  | .found e =>
      if e.uid < MIN_REGULAR_USER_UID then
        .error ("Refusing to perform action for system user: " ++ username)
      else
        .ok ⟨e.name, e.home, e.uid, e.gid⟩

/-! ### Privilege guard -/

/-- The process-wide privilege state: effective uid, effective gid, and the
supplementary group list. -/
structure PrivState where
  euid : Nat
  egid : Nat
  groups : List Nat
deriving DecidableEq, Repr

/-- The identity-changing system calls issued by `PrivilegeGuard`, in the
order the process issues them. -/
inductive Syscall where
  | setgroupsClear
  | setegidCall (gid : Nat)
  | seteuidCall (uid : Nat)
deriving DecidableEq, Repr

/-- Success/failure of each system call the guard makes, supplied by the
environment (the kernel). -/
structure SyscallEnv where
  setgroupsOk : Bool
  setegidOk : Bool
  seteuidOk : Bool
  restoreEgidOk : Bool
  restoreEuidOk : Bool
deriving DecidableEq, Repr

/-- The environment in which every system call succeeds. -/
def allCallsOk : SyscallEnv := ⟨true, true, true, true, true⟩

/-- The `PrivilegeGuard` constructor: `setgroups(0, nullptr)`, then
`setegid(gid)`, then `seteuid(uid)`, each guarded by a short-circuiting
failure check that throws.  Returns the error text of the thrown exception
(if any), the resulting privilege state, and the calls issued. -/
def guardEnter (env : SyscallEnv) (u : UserInfo) (s : PrivState) :
    Option String × PrivState × List Syscall :=
  if !env.setgroupsOk then
    (some "Failed to clear supplementary groups that root may belong to", s, [.setgroupsClear])
  else
    let s1 : PrivState := { s with groups := [] }
    if !env.setegidOk then
      (some ("Failed to drop privileges to user " ++ u.username), s1,
        [.setgroupsClear, .setegidCall u.gid])
    else
      let s2 : PrivState := { s1 with egid := u.gid }
      if !env.seteuidOk then
        (some ("Failed to drop privileges to user " ++ u.username), s2,
          [.setgroupsClear, .setegidCall u.gid, .seteuidCall u.uid])
      else
        (none, { s2 with euid := u.uid },
          [.setgroupsClear, .setegidCall u.gid, .seteuidCall u.uid])

/-- The `PrivilegeGuard` destructor: `setegid(0)`, then (if that succeeded)
`seteuid(0)`; on any failure the process calls `std::terminate`, modelled
by returning `none`. -/
def guardExit (env : SyscallEnv) (s : PrivState) : Option PrivState × List Syscall :=
  if !env.restoreEgidOk then (none, [.setegidCall 0])
  else
    let s1 : PrivState := { s with egid := 0 }
    if !env.restoreEuidOk then (none, [.setegidCall 0, .seteuidCall 0])
    else (some { s1 with euid := 0 }, [.setegidCall 0, .seteuidCall 0])

/-- How the body of a guarded scope finishes: a normal return or an
exception propagating out of the scope. -/
inductive BodyOutcome (α : Type) where
  | ret (a : α)
  | exc (e : String)
deriving DecidableEq, Repr

/-- The result of running a guarded scope: guard construction threw
(destructor never runs), the process terminated in the destructor, or the
scope completed (normally or exceptionally) with privileges restored. -/
inductive ScopeResult (α : Type) where
  | enterFailed (msg : String) (s : PrivState)
  | terminated
  | completed (r : BodyOutcome α) (s : PrivState)
deriving DecidableEq, Repr

/-- C++ scope semantics of `{ PrivilegeGuard guard(userInfo); body }`:
the destructor runs on every exit path of the scope — normal return and
propagating exception alike — but not when the constructor itself threw. -/
def withPrivilegeGuard (env : SyscallEnv) (u : UserInfo) (s0 : PrivState)
    (body : PrivState → BodyOutcome α × PrivState) : ScopeResult α :=
  match guardEnter env u s0 with
  | (some msg, s1, _) => .enterFailed msg s1
  | (none, s1, _) =>
    let (r, s2) := body s1
    match guardExit env s2 with
    | (none, _) => .terminated
    | (some s3, _) => .completed r s3

/-! ### Action handlers

Each handler is modelled as a function from its argument (the `username`
entry of the argument map, `none` when missing or not convertible to a
string) and an environment of I/O outcomes to an `ActionReply` together
with the chronological trace of its externally visible filesystem events.
-/

/-- Model of `KAuth::ActionReply`: success (with optional output data) or error. -/
inductive ActionReply where
  | success (data : List (String × String))
  | error (description : String)
deriving DecidableEq, Repr

/-- Whether a reply is the error variant. -/
def ActionReply.isError : ActionReply → Bool
  | .success _ => false
  | .error _ => true

/-- The externally visible filesystem events of a handler, in program
order.  `stageRead` is the read of a privileged-only source file by
`copyToTempFile`; `homeWrite` is a write (file or directory creation)
under the target user's home; `guardEnterEv`/`guardExitEv` bracket the
privilege-dropped section. -/
inductive Ev where
  | stageRead (source : String)
  | guardEnterEv
  | homeWrite (path : String)
  | guardExitEv
deriving DecidableEq, Repr

/-- Constant `PLASMA_SETUP_HOMEDIR` from `authhelper.cpp`. -/
def PLASMA_SETUP_HOMEDIR : String := "/run/plasma-setup"

/-- Constant `SDDM_AUTOLOGIN_CONFIG_PATH` from `authhelper.cpp`. -/
def SDDM_AUTOLOGIN_CONFIG_PATH : String := "/etc/sddm.conf.d/99-plasma-setup.conf"

/-- Environment of `setnewuserglobaltheme`: the `username` argument, the
`getpwnam_r` outcome, and the success of each fallible I/O step. -/
structure GlobalThemeEnv where
  args : Option String
  lookup : PwLookup
  tempOk : Bool
  guardOk : Bool
  configDirExists : Bool
  mkdirOk : Bool
  copyOk : Bool
deriving Repr

/-- Model of `PlasmaSetupAuthHelper::setnewuserglobaltheme`.  The staging copy of
`/run/plasma-setup/.config/kdeglobals` happens before the guard is
constructed; the `.config` directory creation and the destination copy
happen inside the guarded scope, whose destructor runs on every return
path out of the `try` block. -/
def runSetnewuserglobaltheme (env : GlobalThemeEnv) : ActionReply × List Ev :=
  match env.args with
  | none => (.error "Username argument is missing or invalid.", [])
  | some username =>
    match getUserInfo username env.lookup with
    | .error e => (.error ("Failed to get user info: " ++ e), [])
    | .ok info =>
      if !env.tempOk then
        (.error "Error copying file to temporary location.", [])
      else
        let staged := [Ev.stageRead (PLASMA_SETUP_HOMEDIR ++ "/.config/kdeglobals")]
        if !env.guardOk then
          (.error "Failed to drop privileges.", staged)
        else
          let configDirPath := info.homePath ++ "/.config"
          let mkEvents := if env.configDirExists then [] else [Ev.homeWrite configDirPath]
          if !env.configDirExists && !env.mkdirOk then
            (.error ("Unable to create .config directory: " ++ configDirPath),
              staged ++ [Ev.guardEnterEv] ++ mkEvents ++ [Ev.guardExitEv])
          else
            let destFilePath := configDirPath ++ "/kdeglobals"
            if !env.copyOk then
              (.error ("Unable to copy file to destination: " ++ destFilePath),
                staged ++ [Ev.guardEnterEv] ++ mkEvents ++ [Ev.homeWrite destFilePath, Ev.guardExitEv])
            else
              (.success [],
                staged ++ [Ev.guardEnterEv] ++ mkEvents ++ [Ev.homeWrite destFilePath, Ev.guardExitEv])

/-- Environment of `setnewuserdisplayscaling`: as above, with one staging
and one destination-copy outcome per configuration file
(`kwinoutputconfig.json` first, `kwinrc` second, the loop order of
`filesToCopy`). -/
structure DisplayScalingEnv where
  args : Option String
  lookup : PwLookup
  tempOk1 : Bool
  tempOk2 : Bool
  guardOk : Bool
  configDirExists : Bool
  copyOk1 : Bool
  copyOk2 : Bool
deriving Repr

/-- Model of `PlasmaSetupAuthHelper::setnewuserdisplayscaling`.  Both staged copies
happen before the guard; the directory creation (result unchecked in the
source) and the two destination copies happen inside the guarded scope. -/
def runSetnewuserdisplayscaling (env : DisplayScalingEnv) : ActionReply × List Ev :=
  match env.args with
  | none => (.error "Username argument is missing or invalid.", [])
  | some username =>
    match getUserInfo username env.lookup with
    | .error e => (.error ("Failed to get user info: " ++ e), [])
    | .ok info =>
      let src1 := PLASMA_SETUP_HOMEDIR ++ "/.config/kwinoutputconfig.json"
      let src2 := PLASMA_SETUP_HOMEDIR ++ "/.config/kwinrc"
      if !env.tempOk1 then
        (.error "Error copying file to temporary location.", [])
      else if !env.tempOk2 then
        (.error "Error copying file to temporary location.", [Ev.stageRead src1])
      else
        let staged := [Ev.stageRead src1, Ev.stageRead src2]
        if !env.guardOk then
          (.error "Failed to drop privileges.", staged)
        else
          let destBasePath := info.homePath ++ "/.config"
          let mkEvents := if env.configDirExists then [] else [Ev.homeWrite destBasePath]
          let dest1 := destBasePath ++ "/kwinoutputconfig.json"
          let dest2 := destBasePath ++ "/kwinrc"
          if !env.copyOk1 then
            (.error ("Unable to copy file to destination: " ++ dest1),
              staged ++ [Ev.guardEnterEv] ++ mkEvents ++ [Ev.homeWrite dest1, Ev.guardExitEv])
          else if !env.copyOk2 then
            (.error ("Unable to copy file to destination: " ++ dest2),
              staged ++ [Ev.guardEnterEv] ++ mkEvents
                ++ [Ev.homeWrite dest1, Ev.homeWrite dest2, Ev.guardExitEv])
          else
            (.success [],
              staged ++ [Ev.guardEnterEv] ++ mkEvents
                ++ [Ev.homeWrite dest1, Ev.homeWrite dest2, Ev.guardExitEv])

/-- Environment of `createnewuserautostarthook`. -/
structure AutostartHookEnv where
  args : Option String
  lookup : PwLookup
  guardOk : Bool
  autostartDirExists : Bool
  mkdirOk : Bool
  fileOpenOk : Bool
deriving Repr

/-- Model of `PlasmaSetupAuthHelper::createnewuserautostarthook`: no staging; the
autostart directory creation and the desktop-entry write happen inside
the guarded scope. -/
def runCreatenewuserautostarthook (env : AutostartHookEnv) : ActionReply × List Ev :=
  match env.args with
  | none => (.error "Username argument is missing or invalid.", [])
  | some username =>
    match getUserInfo username env.lookup with
    | .error e => (.error ("Failed to get user info: " ++ e), [])
    | .ok info =>
      if !env.guardOk then
        (.error "Failed to drop privileges.", [])
      else
        let autostartDirPath := info.homePath ++ "/.config/autostart"
        let mkEvents := if env.autostartDirExists then [] else [Ev.homeWrite autostartDirPath]
        if !env.autostartDirExists && !env.mkdirOk then
          (.error ("Unable to create autostart directory: " ++ autostartDirPath),
            [Ev.guardEnterEv] ++ mkEvents ++ [Ev.guardExitEv])
        else
          let desktopFilePath := autostartDirPath ++ "/remove-autologin.desktop"
          if !env.fileOpenOk then
            (.error ("Unable to open file for writing: " ++ desktopFilePath),
              [Ev.guardEnterEv] ++ mkEvents ++ [Ev.guardExitEv])
          else
            (.success [("autostartFilePath", desktopFilePath)],
              [Ev.guardEnterEv] ++ mkEvents ++ [Ev.homeWrite desktopFilePath, Ev.guardExitEv])

/-- The exact text `setnewusertempautologin` streams into the SDDM
autologin configuration file. -/
def autologinContent (username : String) : String :=
  "[Autologin]\nUser=" ++ username ++ "\nSession=plasma\nRelogin=true\n"

/-- Model of `PlasmaSetupAuthHelper::setnewusertempautologin`: identity resolution
is performed only as a validation gate; on success the descriptor file is
written with `autologinContent`.  The second component is the content
written to `SDDM_AUTOLOGIN_CONFIG_PATH`, `none` when nothing is written. -/
def runSetnewusertempautologin (args : Option String) (lookup : PwLookup)
    (fileOpenOk : Bool) : ActionReply × Option String :=
  match args with
  | none => (.error "Username argument is missing or invalid.", none)
  | some username =>
    match getUserInfo username lookup with
    | .error e => (.error ("Failed to get user info: " ++ e), none)
    | .ok _ =>
      if !fileOpenOk then
        (.error ("Unable to open file " ++ SDDM_AUTOLOGIN_CONFIG_PATH ++ " for writing."), none)
      else
        (.success [], some (autologinContent username))

/-! ### Specification-side predicates -/

/-- A login.defs line that successfully sets the given key: not blank, not
a `#` comment, first token equal to the key and second token parsing as a
non-negative int. -/
def setsLoginDefsKey (key : List Char) (line : List Char) : Bool :=
  let t := trimmedQ line
  !t.isEmpty && !(t.head? == some '#') &&
    match wsTokens t with
    | k :: v :: _ =>
      k == key &&
        (match qStringToInt v with
          | some n => decide (0 ≤ n)
          | none => false)
    | _ => false

/-- The phase of an event within a staged privileged action: staging reads
come first, then the privilege drop, then the writes in the target home,
then the restoration. -/
def evPhase : Ev → Nat
  | .stageRead _ => 0
  | .guardEnterEv => 1
  | .homeWrite _ => 2
  | .guardExitEv => 3

/-- The temporal discipline of a staged privileged action: event phases
never decrease along the trace (so every staging read precedes the
privilege drop and every home write follows it, and no staging read
happens inside the guarded section), and a home write can only appear if
the privilege drop actually happened. -/
def TraceOrdered (t : List Ev) : Prop :=
  (t.map evPhase).Sorted (· ≤ ·) ∧
    ((∃ p, Ev.homeWrite p ∈ t) → Ev.guardEnterEv ∈ t)

/-! ## Theorems -/

/-- Lemma: `validateUsername` returns `Valid` exactly when the trimmed input is
non-empty, within the length bound, and matches the username pattern. -/
theorem validateUsername_eq_valid_iff (s : List Char) :
    validateUsername s = .Valid ↔
      ((trimmedQ s).isEmpty = false ∧ qsize (trimmedQ s) ≤ MAX_USERNAME_LENGTH ∧
        matchesUsernamePattern (trimmedQ s) = true) := by
  unfold validateUsername
  by_cases h1 : (trimmedQ s).isEmpty
  · simp [h1]
  · by_cases h2 : qsize (trimmedQ s) ≤ MAX_USERNAME_LENGTH
    · by_cases h3 : matchesUsernamePattern (trimmedQ s)
      · simp [h1, h2, h3, Nat.not_lt.mpr h2]
      · simp [h1, h3, Nat.not_lt.mpr h2]
    · simp [h1, h2, Nat.lt_of_not_le h2]

/-- The label loop returns `Valid` exactly when every label is non-empty,
within the length bound, and matches the label pattern. -/
theorem checkHostnameLabels_eq_valid_iff (ls : List (List Char)) :
    checkHostnameLabels ls = .Valid ↔
      ∀ l ∈ ls, l.isEmpty = false ∧ qsize l ≤ MAX_LABEL_LENGTH ∧ matchesLabelPattern l = true := by
  induction ls with
  | nil => simp [checkHostnameLabels]
  | cons l rest ih =>
    unfold checkHostnameLabels
    by_cases h1 : l.isEmpty
    · simp only [h1, if_true]
      constructor
      · intro h; cases h
      · intro h
        exact absurd h1 (by simpa using (h l (by simp)).1)
    · by_cases h2 : qsize l ≤ MAX_LABEL_LENGTH
      · by_cases h3 : matchesLabelPattern l
        · have h1' : l ≠ [] := by simpa using h1
          simp [h1, h1', h2, h3, Nat.not_lt.mpr h2, ih]
        · simp [h1, h2, h3, Nat.not_lt.mpr h2]
      · simp [h1, h2, Nat.lt_of_not_le h2]

/-- Lemma: `validateHostname` returns `Valid` exactly when the trimmed input
passes every check of the hostname rule. -/
theorem validateHostname_eq_valid_iff (s : List Char) :
    validateHostname s = .Valid ↔
      ((trimmedQ s).isEmpty = false ∧ isDisallowedHostname (trimmedQ s) = false ∧
        qsize (trimmedQ s) ≤ MAX_HOSTNAME_LENGTH ∧
        (trimmedQ s).head? ≠ some '.' ∧ (trimmedQ s).getLast? ≠ some '.' ∧
        hasConsecutiveDots (trimmedQ s) = false ∧
        ∀ l ∈ splitOnChar '.' (trimmedQ s),
          l.isEmpty = false ∧ qsize l ≤ MAX_LABEL_LENGTH ∧ matchesLabelPattern l = true) := by
  unfold validateHostname
  by_cases h1 : (trimmedQ s).isEmpty
  · simp [h1]
  · by_cases h2 : isDisallowedHostname (trimmedQ s)
    · simp [h1, h2]
    · by_cases h3 : qsize (trimmedQ s) ≤ MAX_HOSTNAME_LENGTH
      · by_cases h4 : (trimmedQ s).head? = some '.'
        · simp [h1, h2, h4, Nat.not_lt.mpr h3]
        · by_cases h5 : (trimmedQ s).getLast? = some '.'
          · simp [h1, h2, h4, h5, Nat.not_lt.mpr h3]
          · by_cases h6 : hasConsecutiveDots (trimmedQ s)
            · simp [h1, h2, h4, h5, h6, Nat.not_lt.mpr h3]
            · simp [h1, h2, h3, h4, h5, h6, Nat.not_lt.mpr h3,
                checkHostnameLabels_eq_valid_iff]
      · simp [h1, h2, h3, Nat.lt_of_not_le h3]

/-- C5: `validateUsername` returns `Valid` exactly when the trimmed input
is non-empty, at most 32 UTF-16 units long, and matches
`^[A-Za-z_][A-Za-z0-9_.-]*$`; the outcome is a single value of the closed
enumeration, deterministic across repeated calls, and
`usernameValidationMessage` maps `Valid` to the empty string and every
other outcome to a non-empty message. -/
theorem C5_username_validation :
    (∀ s : List Char,
        validateUsername s = .Valid ↔
          ((trimmedQ s).isEmpty = false ∧ qsize (trimmedQ s) ≤ MAX_USERNAME_LENGTH ∧
            matchesUsernamePattern (trimmedQ s) = true))
      ∧ (∀ s : List Char, validateUsername s = validateUsername s)
      ∧ usernameValidationMessage .Valid = ""
      ∧ (∀ r : UsernameValidationResult, r ≠ .Valid → usernameValidationMessage r ≠ "") := by
  refine ⟨validateUsername_eq_valid_iff, fun _ => rfl, rfl, ?_⟩
  intro r hr
  cases r
  · exact absurd rfl hr
  all_goals decide

/-- Witness for C5 at the concrete input "a" and outcome `Empty`. -/
theorem C5_username_validation_witness :
    validateUsername ['a'] = .Valid ∧ usernameValidationMessage .Empty ≠ "" :=
  ⟨(C5_username_validation.1 ['a']).mpr (by decide),
    C5_username_validation.2.2.2 .Empty (by decide)⟩

/-- C6: `validateHostname` returns `Valid` exactly for trimmed inputs that
are non-empty, not case-insensitively a disallowed literal, within 253
UTF-16 units, without leading/trailing/consecutive dots, and whose labels
are non-empty, at most 63 units, and match the label pattern; the four
scenario inputs produce the stated outcomes, with an empty message for
the valid one. -/
theorem C6_hostname_validation :
    (∀ s : List Char,
        validateHostname s = .Valid ↔
          ((trimmedQ s).isEmpty = false ∧ isDisallowedHostname (trimmedQ s) = false ∧
            qsize (trimmedQ s) ≤ MAX_HOSTNAME_LENGTH ∧
            (trimmedQ s).head? ≠ some '.' ∧ (trimmedQ s).getLast? ≠ some '.' ∧
            hasConsecutiveDots (trimmedQ s) = false ∧
            ∀ l ∈ splitOnChar '.' (trimmedQ s),
              l.isEmpty = false ∧ qsize l ≤ MAX_LABEL_LENGTH ∧ matchesLabelPattern l = true))
      ∧ validateHostname "-badstart".data = .InvalidCharacters
      ∧ validateHostname "a..b".data = .ConsecutiveDots
      ∧ validateHostname "".data = .Empty
      ∧ validateHostname "valid-host".data = .Valid
      ∧ hostnameValidationMessageForResult (validateHostname "valid-host".data) = "" := by
  refine ⟨validateHostname_eq_valid_iff, ?_, ?_, ?_, ?_, ?_⟩ <;> decide

/-- Witness for C6 at the concrete input "valid-host". -/
theorem C6_hostname_validation_witness :
    validateHostname "valid-host".data = .Valid :=
  (C6_hostname_validation.1 "valid-host".data).mpr (by decide)

/-- C10: `HostnameUtil::setHostname` leaves the cached hostname unchanged,
emits no `hostnameChanged` signal, and issues no system hostname change
whenever the trimmed input equals the cached hostname or fails validation;
the cached hostname is only ever replaced by a trimmed string that
validates as `Valid`. -/
theorem C10_setHostname_frame :
    ∀ m h : List Char,
      ((validateHostname (trimmedQ h) ≠ .Valid ∨ trimmedQ h = m) →
        setHostname m h = (m, false, none))
      ∧ (∀ m' emitted sys, setHostname m h = (m', emitted, sys) →
          m' = m ∨ (m' = trimmedQ h ∧ validateHostname m' = .Valid)) := by
  intro m h
  constructor
  · intro hcond
    unfold setHostname
    by_cases heq : trimmedQ h = m
    · simp [heq]
    · have hval : validateHostname (trimmedQ h) ≠ .Valid := by tauto
      simp [heq, hval]
  · intro m' emitted sys hrun
    unfold setHostname at hrun
    by_cases heq : trimmedQ h = m
    · simp [heq] at hrun
      exact Or.inl hrun.1.symm
    · by_cases hval : validateHostname (trimmedQ h) = .Valid
      · simp [heq, hval] at hrun
        exact Or.inr ⟨hrun.1.symm, hrun.1.symm ▸ hval⟩
      · simp [heq, hval] at hrun
        exact Or.inl hrun.1.symm

/-- Witness for C10: the invalid request "-bad" against cached hostname
"pc" is ignored. -/
theorem C10_setHostname_frame_witness :
    setHostname "pc".data "-bad".data = ("pc".data, false, none) :=
  (C10_setHostname_frame "pc".data "-bad".data).1 (Or.inl (by decide))

/-- The scan is a pure membership test over the clipped uid interval,
for well-formed ranges within the 32-bit int domain. -/
theorem detectExistingUsers_iff (uidRange : Int × Int) (db : List PasswdEntry)
    (h1 : 0 ≤ uidRange.1) (h2 : uidRange.1 ≤ uidRange.2) (h3 : uidRange.2 ≤ 2147483647) :
    detectExistingUsers uidRange db = true ↔
      ∃ e ∈ db, max uidRange.1 MINIMUM_USER_ID ≤ (e.uid : Int) ∧
        (e.uid : Int) ≤ min uidRange.2 MAXIMUM_USER_ID := by
  have hmod1 : (max uidRange.1 MINIMUM_USER_ID) % 4294967296 = max uidRange.1 MINIMUM_USER_ID := by
    unfold MINIMUM_USER_ID
    omega
  have hmod2 : (min uidRange.2 MAXIMUM_USER_ID) % 4294967296 = min uidRange.2 MAXIMUM_USER_ID := by
    unfold MAXIMUM_USER_ID
    omega
  have key : ∀ e : PasswdEntry,
      ((decide ((((max uidRange.1 MINIMUM_USER_ID) % 4294967296).toNat ≤ e.uid)) &&
        decide ((e.uid ≤ ((min uidRange.2 MAXIMUM_USER_ID) % 4294967296).toNat))) = true) ↔
      (max uidRange.1 MINIMUM_USER_ID ≤ (e.uid : Int) ∧
        (e.uid : Int) ≤ min uidRange.2 MAXIMUM_USER_ID) := by
    intro e
    rw [hmod1, hmod2]
    simp only [Bool.and_eq_true, decide_eq_true_eq]
    unfold MINIMUM_USER_ID MAXIMUM_USER_ID
    omega
  unfold detectExistingUsers
  rw [List.any_eq_true]
  constructor
  · rintro ⟨e, he, hcond⟩
    exact ⟨e, he, (key e).mp hcond⟩
  · rintro ⟨e, he, hcond⟩
    exact ⟨e, he, (key e).mpr hcond⟩

/-- A line that does not validly set `UID_MIN` leaves the minimum bound
unchanged. -/
theorem applyLoginDefsLine_fst_of_not_sets (acc : Int × Int) (line : List Char)
    (h : setsLoginDefsKey uidMinKey line = false) :
    (applyLoginDefsLine acc line).1 = acc.1 := by
  unfold setsLoginDefsKey at h
  unfold applyLoginDefsLine
  by_cases h1 : (trimmedQ line).isEmpty
  · simp [h1]
  · by_cases h2 : ((trimmedQ line).head? == some '#') = true
    · simp [h1, h2]
    · simp only [h1, h2, Bool.not_false, Bool.true_and, Bool.and_eq_false_iff] at h ⊢
      rcases htok : wsTokens (trimmedQ line) with _ | ⟨k, _ | ⟨v, rest⟩⟩
      · simp
      · simp
      · rw [htok] at h
        by_cases hk : k = uidMinKey
        · subst hk
          simp only [beq_self_eq_true, Bool.true_and] at h
          have hkmax : (uidMinKey = uidMaxKey) = False := by simp [uidMinKey, uidMaxKey]
          rcases hv : qStringToInt v with _ | n
          · simp [hv, hkmax]
          · rw [hv] at h
            have hn : ¬ (0 ≤ n) := by simpa using h
            simp [hv, hn, hkmax]
        · simp only [beq_iff_eq, hk] at h ⊢
          by_cases hk2 : k = uidMaxKey
          · rcases hv : qStringToInt v with _ | n
            · simp [hk, hk2, hv]
            · by_cases hn : (0 : Int) ≤ n <;> simp [hk, hk2, hv, hn]
          · simp [hk, hk2]

/-- A line that does not validly set `UID_MAX` leaves the maximum bound
unchanged. -/
theorem applyLoginDefsLine_snd_of_not_sets (acc : Int × Int) (line : List Char)
    (h : setsLoginDefsKey uidMaxKey line = false) :
    (applyLoginDefsLine acc line).2 = acc.2 := by
  unfold setsLoginDefsKey at h
  unfold applyLoginDefsLine
  by_cases h1 : (trimmedQ line).isEmpty
  · simp [h1]
  · by_cases h2 : ((trimmedQ line).head? == some '#') = true
    · simp [h1, h2]
    · simp only [h1, h2, Bool.not_false, Bool.true_and] at h ⊢
      rcases htok : wsTokens (trimmedQ line) with _ | ⟨k, _ | ⟨v, rest⟩⟩
      · simp
      · simp
      · rw [htok] at h
        by_cases hk : k = uidMaxKey
        · subst hk
          simp only [beq_self_eq_true, Bool.true_and] at h
          have hkmin : (uidMaxKey = uidMinKey) = False := by simp [uidMinKey, uidMaxKey]
          rcases hv : qStringToInt v with _ | n
          · simp [hv, hkmin]
          · rw [hv] at h
            have hn : ¬ (0 ≤ n) := by simpa using h
            simp [hv, hn, hkmin]
        · simp only [beq_iff_eq, hk] at h ⊢
          by_cases hk2 : k = uidMinKey
          · rcases hv : qStringToInt v with _ | n
            · simp [hk, hk2, hv]
            · by_cases hn : (0 : Int) ≤ n <;> simp [hk, hk2, hv, hn]
          · simp [hk, hk2]

/-- Folding lines none of which validly sets `UID_MIN` keeps the minimum
bound. -/
theorem foldl_loginDefs_fst (lines : List (List Char)) :
    ∀ acc : Int × Int, (∀ l ∈ lines, setsLoginDefsKey uidMinKey l = false) →
      (lines.foldl applyLoginDefsLine acc).1 = acc.1 := by
  induction lines with
  | nil => intro acc _; rfl
  | cons l rest ih =>
    intro acc h
    rw [List.foldl_cons, ih _ fun x hx => h x (List.mem_cons_of_mem _ hx)]
    exact applyLoginDefsLine_fst_of_not_sets acc l (h l (List.mem_cons_self _ _))

/-- Folding lines none of which validly sets `UID_MAX` keeps the maximum
bound. -/
theorem foldl_loginDefs_snd (lines : List (List Char)) :
    ∀ acc : Int × Int, (∀ l ∈ lines, setsLoginDefsKey uidMaxKey l = false) →
      (lines.foldl applyLoginDefsLine acc).2 = acc.2 := by
  induction lines with
  | nil => intro acc _; rfl
  | cons l rest ih =>
    intro acc h
    rw [List.foldl_cons, ih _ fun x hx => h x (List.mem_cons_of_mem _ hx)]
    exact applyLoginDefsLine_snd_of_not_sets acc l (h l (List.mem_cons_self _ _))

/-- C7: the existing-regular-user scan returns true if and only if some
account-database entry's uid lies within the uid range clipped to
[0, 65535]; in particular, with a login-defs range of UID_MIN 500 /
UID_MAX 60000, an entry with uid 500 yields true and an entry with uid
499 yields false. -/
theorem C7_detectExistingUsers :
    (∀ (uidRange : Int × Int) (db : List PasswdEntry),
        0 ≤ uidRange.1 → uidRange.1 ≤ uidRange.2 → uidRange.2 ≤ 2147483647 →
        (detectExistingUsers uidRange db = true ↔
          ∃ e ∈ db, max uidRange.1 MINIMUM_USER_ID ≤ (e.uid : Int) ∧
            (e.uid : Int) ≤ min uidRange.2 MAXIMUM_USER_ID))
      ∧ detectExistingUsers
          (regularUserUidRange (some ["UID_MIN 500".data, "UID_MAX 60000".data]))
          [⟨"alice", "/home/alice", 500, 500⟩] = true
      ∧ detectExistingUsers
          (regularUserUidRange (some ["UID_MIN 500".data, "UID_MAX 60000".data]))
          [⟨"svc", "/srv/svc", 499, 499⟩] = false := by
  exact ⟨detectExistingUsers_iff, by decide, by decide⟩

/-- Witness for C7: the range (1000, 65000) and a database containing uid
1500. -/
theorem C7_detectExistingUsers_witness :
    detectExistingUsers (1000, 65000) [⟨"bob", "/home/bob", 1500, 1500⟩] = true :=
  (C7_detectExistingUsers.1 (1000, 65000) [⟨"bob", "/home/bob", 1500, 1500⟩]
    (by decide) (by decide) (by decide)).mpr (by decide)

/-- C8: `regularUserUidRange` falls back to the defaults (1000, 65000)
when the file cannot be read; a bound stays at its default when no line
validly sets the corresponding key (absent key or malformed value); lines
are parsed as whitespace-separated KEY VALUE pairs, ignoring blank lines
and #-comments. -/
theorem C8_regularUserUidRange :
    regularUserUidRange none = (DEFAULT_MIN_REGULAR_USER_ID, DEFAULT_MAX_REGULAR_USER_ID)
      ∧ (∀ lines : List (List Char),
          (∀ l ∈ lines, setsLoginDefsKey uidMinKey l = false) →
          (regularUserUidRange (some lines)).1 = DEFAULT_MIN_REGULAR_USER_ID)
      ∧ (∀ lines : List (List Char),
          (∀ l ∈ lines, setsLoginDefsKey uidMaxKey l = false) →
          (regularUserUidRange (some lines)).2 = DEFAULT_MAX_REGULAR_USER_ID)
      ∧ regularUserUidRange
          (some ["# UID_MIN 1".data, "".data, "  UID_MIN   500  ".data, "UID_MAX 60000".data])
          = (500, 60000)
      ∧ regularUserUidRange (some ["UID_MIN abc".data, "UID_MAX -5".data])
          = (DEFAULT_MIN_REGULAR_USER_ID, DEFAULT_MAX_REGULAR_USER_ID)
      ∧ DEFAULT_MIN_REGULAR_USER_ID = 1000 ∧ DEFAULT_MAX_REGULAR_USER_ID = 65000 := by
  refine ⟨rfl, fun lines h => foldl_loginDefs_fst lines _ h,
    fun lines h => foldl_loginDefs_snd lines _ h, by decide, by decide, rfl, rfl⟩

/-- Witness for C8: a file whose only line sets `UID_MAX` leaves the
minimum at its default. -/
theorem C8_regularUserUidRange_witness :
    (regularUserUidRange (some ["UID_MAX 60000".data])).1 = DEFAULT_MIN_REGULAR_USER_ID :=
  C8_regularUserUidRange.2.1 ["UID_MAX 60000".data] (by decide)

/-- C1: for every target identity, entering the privilege guard and then
exiting it restores the effective uid and gid observed immediately before
entry (root), and the restoration runs on every exit path of the guarded
scope, including when the body finishes with a propagating exception
(the body outcome is returned unchanged, exceptional or not, with
privileges already restored). -/
theorem C1_privilege_guard_roundtrip (α : Type) (u : UserInfo) (s0 : PrivState)
    (body : PrivState → BodyOutcome α × PrivState)
    (h0 : s0.euid = 0) (h0' : s0.egid = 0) :
    ∃ r sfin,
      withPrivilegeGuard allCallsOk u s0 body = .completed r sfin ∧
      r = (body { euid := u.uid, egid := u.gid, groups := [] }).1 ∧
      sfin.euid = s0.euid ∧ sfin.egid = s0.egid := by
  rcases hres : body { euid := u.uid, egid := u.gid, groups := [] } with ⟨r, s2⟩
  refine ⟨r, { euid := 0, egid := 0, groups := s2.groups }, ?_, by simp [hres],
    by rw [h0], by rw [h0']⟩
  unfold withPrivilegeGuard guardEnter guardExit allCallsOk
  simp [hres]

/-- Witness for C1: a body that throws still completes with euid/egid
restored to 0. -/
theorem C1_privilege_guard_roundtrip_witness :
    ∃ r sfin,
      withPrivilegeGuard allCallsOk ⟨"alice", "/home/alice", 1000, 1000⟩ ⟨0, 0, []⟩
        (fun s => ((BodyOutcome.exc "boom" : BodyOutcome Nat), s)) = .completed r sfin ∧
      r = BodyOutcome.exc "boom" ∧
      sfin.euid = 0 ∧ sfin.egid = 0 :=
  C1_privilege_guard_roundtrip Nat ⟨"alice", "/home/alice", 1000, 1000⟩ ⟨0, 0, []⟩
    (fun s => (BodyOutcome.exc "boom", s)) rfl rfl

/-- C2 counterexample: on exit the guard issues `setegid(0)` first and
`seteuid(0)` second — not effective uid first as the claim states. -/
theorem C2_order_counterexample :
    (guardExit allCallsOk ⟨1000, 1000, []⟩).2 = [Syscall.setegidCall 0, Syscall.seteuidCall 0] ∧
    ¬ (guardExit allCallsOk ⟨1000, 1000, []⟩).2 = [Syscall.seteuidCall 0, Syscall.setegidCall 0] := by
  decide

/-- C2 (amended): on entry the guard clears supplementary groups, then
sets the effective gid, then the effective uid, in that order; on exit it
sets the effective gid back to 0 and then the effective uid back to 0;
and if restoration fails the process terminates immediately instead of
continuing at an unknown privilege level. -/
theorem C2_privilege_transition_order :
    (∀ (u : UserInfo) (s : PrivState),
        (guardEnter allCallsOk u s).2.2 =
          [Syscall.setgroupsClear, Syscall.setegidCall u.gid, Syscall.seteuidCall u.uid])
      ∧ (∀ s : PrivState,
          (guardExit allCallsOk s).2 = [Syscall.setegidCall 0, Syscall.seteuidCall 0])
      ∧ (∀ (env : SyscallEnv) (s : PrivState),
          env.restoreEgidOk = false ∨ env.restoreEuidOk = false →
          (guardExit env s).1 = none)
      ∧ (∀ (α : Type) (env : SyscallEnv) (u : UserInfo) (s0 : PrivState)
          (body : PrivState → BodyOutcome α × PrivState),
          env.setgroupsOk = true → env.setegidOk = true → env.seteuidOk = true →
          (env.restoreEgidOk = false ∨ env.restoreEuidOk = false) →
          withPrivilegeGuard env u s0 body = .terminated) := by
  refine ⟨?_, ?_, ?_, ?_⟩
  · intro u s
    unfold guardEnter allCallsOk
    simp
  · intro s
    unfold guardExit allCallsOk
    simp
  · intro env s h
    unfold guardExit
    rcases h with h | h
    · simp [h]
    · by_cases hg : env.restoreEgidOk <;> simp [hg, h]
  · intro α env u s0 body h1 h2 h3 h4
    rcases hres : body { euid := u.uid, egid := u.gid, groups := [] } with ⟨r, s2⟩
    unfold withPrivilegeGuard guardEnter guardExit
    rcases h4 with h | h
    · simp [h1, h2, h3, h, hres]
    · by_cases hg : env.restoreEgidOk <;> simp [h1, h2, h3, h, hg, hres]

/-- Witness for C2: entry call order at a concrete identity, and
termination when restoring the gid fails. -/
theorem C2_privilege_transition_order_witness :
    (guardEnter allCallsOk ⟨"alice", "/home/alice", 1000, 1000⟩ ⟨0, 0, [4]⟩).2.2 =
      [Syscall.setgroupsClear, Syscall.setegidCall 1000, Syscall.seteuidCall 1000] ∧
    withPrivilegeGuard ⟨true, true, true, false, true⟩ ⟨"alice", "/home/alice", 1000, 1000⟩
      ⟨0, 0, []⟩ (fun s => ((BodyOutcome.ret 0 : BodyOutcome Nat), s)) = .terminated :=
  ⟨C2_privilege_transition_order.1 _ _,
    C2_privilege_transition_order.2.2.2 Nat _ _ _ _ rfl rfl rfl (Or.inl rfl)⟩

/-- C3 counterexample: with a login-definitions file configuring
UID_MIN 2000, an account with uid 1500 — below that configured minimum —
still resolves successfully: the helper's threshold is the hardcoded
constant 1000 and does not come from the login-definitions file. -/
theorem C3_threshold_counterexample :
    (regularUserUidRange (some ["UID_MIN 2000".data, "UID_MAX 60000".data])).1 = 2000 ∧
    1500 < 2000 ∧
    getUserInfo "svcuser" (.found ⟨"svcuser", "/home/svcuser", 1500, 1500⟩) =
      .ok ⟨"svcuser", "/home/svcuser", 1500, 1500⟩ :=
  ⟨by decide, by decide, rfl⟩

/-- C3 (amended): the helper's minimum-regular-user threshold is the fixed
constant 1000 (independent of the login-definitions file, which only the
GUI's existing-user detection reads); for every account entry with uid
below 1000, `getUserInfo` fails with the system-user rejection, and each
helper action taking a username then returns an Error reply with no
filesystem event and nothing written. -/
theorem C3_system_user_rejection :
    MIN_REGULAR_USER_UID = 1000
      ∧ (∀ (username : String) (e : PasswdEntry), e.uid < MIN_REGULAR_USER_UID →
          getUserInfo username (.found e) =
            .error ("Refusing to perform action for system user: " ++ username))
      ∧ (∀ (u : String) (e : PasswdEntry) (tempOk guardOk cde mkOk copyOk : Bool),
          e.uid < MIN_REGULAR_USER_UID →
          runSetnewuserglobaltheme ⟨some u, .found e, tempOk, guardOk, cde, mkOk, copyOk⟩ =
            (.error ("Failed to get user info: " ++
              ("Refusing to perform action for system user: " ++ u)), []))
      ∧ (∀ (u : String) (e : PasswdEntry) (t1 t2 g cde c1 c2 : Bool),
          e.uid < MIN_REGULAR_USER_UID →
          runSetnewuserdisplayscaling ⟨some u, .found e, t1, t2, g, cde, c1, c2⟩ =
            (.error ("Failed to get user info: " ++
              ("Refusing to perform action for system user: " ++ u)), []))
      ∧ (∀ (u : String) (e : PasswdEntry) (g ade mkOk fo : Bool),
          e.uid < MIN_REGULAR_USER_UID →
          runCreatenewuserautostarthook ⟨some u, .found e, g, ade, mkOk, fo⟩ =
            (.error ("Failed to get user info: " ++
              ("Refusing to perform action for system user: " ++ u)), []))
      ∧ (∀ (u : String) (e : PasswdEntry) (fileOpenOk : Bool),
          e.uid < MIN_REGULAR_USER_UID →
          runSetnewusertempautologin (some u) (.found e) fileOpenOk =
            (.error ("Failed to get user info: " ++
              ("Refusing to perform action for system user: " ++ u)), none)) := by
  have hget : ∀ (u : String) (e : PasswdEntry), e.uid < MIN_REGULAR_USER_UID →
      getUserInfo u (.found e) =
        .error ("Refusing to perform action for system user: " ++ u) := by
    intro u e h
    simp [getUserInfo, h]
  refine ⟨rfl, hget, ?_, ?_, ?_, ?_⟩
  · intro u e tempOk guardOk cde mkOk copyOk h
    simp [runSetnewuserglobaltheme, hget u e h]
  · intro u e t1 t2 g cde c1 c2 h
    simp [runSetnewuserdisplayscaling, hget u e h]
  · intro u e g ade mkOk fo h
    simp [runCreatenewuserautostarthook, hget u e h]
  · intro u e fileOpenOk h
    simp [runSetnewusertempautologin, hget u e h]

/-- Witness for C3 (amended) at uid 999. -/
theorem C3_system_user_rejection_witness :
    runSetnewusertempautologin (some "daemon") (.found ⟨"daemon", "/", 999, 999⟩) true =
      (.error ("Failed to get user info: " ++
        ("Refusing to perform action for system user: " ++ "daemon")), none) :=
  C3_system_user_rejection.2.2.2.2.2 "daemon" ⟨"daemon", "/", 999, 999⟩ true (by decide)

/-- C4: in `setnewuserglobaltheme` and `setnewuserdisplayscaling`, for
every environment (every combination of argument presence, lookup outcome
and I/O success), the event trace is phase-ordered: all staging reads of
privileged source files precede the privilege drop, all writes under the
target home follow it (and precede the restoration), and no staging read
occurs inside the guarded section. -/
theorem C4_staging_before_drop_writes_after :
    (∀ env : GlobalThemeEnv, TraceOrdered (runSetnewuserglobaltheme env).2)
      ∧ (∀ env : DisplayScalingEnv, TraceOrdered (runSetnewuserdisplayscaling env).2) := by
  constructor
  · rintro ⟨args, lookup, tempOk, guardOk, cde, mkOk, copyOk⟩
    cases args with
    | none => simp [runSetnewuserglobaltheme, TraceOrdered]
    | some u =>
      rcases hgi : getUserInfo u lookup with e | info
      · simp [runSetnewuserglobaltheme, hgi, TraceOrdered]
      · cases tempOk <;> cases guardOk <;> cases cde <;> cases mkOk <;> cases copyOk <;>
          simp [runSetnewuserglobaltheme, hgi, TraceOrdered, evPhase, List.sorted_cons]
  · rintro ⟨args, lookup, t1, t2, guardOk, cde, c1, c2⟩
    cases args with
    | none => simp [runSetnewuserdisplayscaling, TraceOrdered]
    | some u =>
      rcases hgi : getUserInfo u lookup with e | info
      · simp [runSetnewuserdisplayscaling, hgi, TraceOrdered]
      · cases t1 <;> cases t2 <;> cases guardOk <;> cases cde <;> cases c1 <;> cases c2 <;>
          simp [runSetnewuserdisplayscaling, hgi, TraceOrdered, evPhase, List.sorted_cons]

/-- Witness for C4: the all-success run of the global-theme action is
phase-ordered. -/
theorem C4_staging_before_drop_writes_after_witness :
    TraceOrdered (runSetnewuserglobaltheme
      ⟨some "alice", .found ⟨"alice", "/home/alice", 1000, 1000⟩,
        true, true, true, true, true⟩).2 :=
  C4_staging_before_drop_writes_after.1
    ⟨some "alice", .found ⟨"alice", "/home/alice", 1000, 1000⟩, true, true, true, true, true⟩

/-- C9: on success `setnewusertempautologin` writes exactly the single
`[Autologin]` section with `User=<username>`, `Session=plasma` and
`Relogin=true`; identity resolution is only a validation gate (the written
content depends only on the username argument), and when resolution fails
or the username argument is missing the action returns Error and writes
nothing. -/
theorem C9_temp_autologin :
    (∀ (username : String) (lookup : PwLookup) (info : UserInfo),
        getUserInfo username lookup = .ok info →
        runSetnewusertempautologin (some username) lookup true =
          (.success [], some (autologinContent username)))
      ∧ (∀ (username : String) (lookup : PwLookup) (e : String),
          getUserInfo username lookup = .error e →
          ∀ fileOpenOk : Bool,
            runSetnewusertempautologin (some username) lookup fileOpenOk =
              (.error ("Failed to get user info: " ++ e), none))
      ∧ (∀ (lookup : PwLookup) (fileOpenOk : Bool),
          runSetnewusertempautologin none lookup fileOpenOk =
            (.error "Username argument is missing or invalid.", none))
      ∧ (∀ username : String, autologinContent username =
          "[Autologin]\nUser=" ++ username ++ "\nSession=plasma\nRelogin=true\n") := by
  refine ⟨?_, ?_, fun lookup fileOpenOk => rfl, fun username => rfl⟩
  · intro username lookup info h
    simp [runSetnewusertempautologin, h]
  · intro username lookup e h fileOpenOk
    simp [runSetnewusertempautologin, h]

/-- Witness for C9: a resolvable user produces exactly the fixed-format
descriptor; an unresolvable one produces an error and no write. -/
theorem C9_temp_autologin_witness :
    runSetnewusertempautologin (some "alice") (.found ⟨"alice", "/home/alice", 1000, 1000⟩) true =
      (.success [], some (autologinContent "alice")) ∧
    runSetnewusertempautologin (some "ghost") .notFound true =
      (.error ("Failed to get user info: " ++ ("User does not exist: " ++ "ghost")), none) :=
  ⟨C9_temp_autologin.1 "alice" (.found ⟨"alice", "/home/alice", 1000, 1000⟩)
      ⟨"alice", "/home/alice", 1000, 1000⟩ rfl,
    C9_temp_autologin.2.1 "ghost" .notFound ("User does not exist: " ++ "ghost") rfl true⟩

end PlasmaSetup
